import Mathlib

/-!
Shallow embedding of the email-triage pipeline and resolution poller:
inbound filtering, routing policy, ticket creation, acknowledgement
generation, the audit store, the pipeline tail (deliver / persist) and the
resolution-notification cycle, together with theorems about them.
-/

/-- Classifier output consumed by the router and the audit log:
category, confidence, summary, is_urgent. -/
structure Classification where
  category : String
  confidence : ℚ
  summary : String
  is_urgent : Bool
deriving DecidableEq

/-- Byte-wise test that the first list is an initial segment of the second
(Python str.startswith over the character sequence). -/
def chunkLe : List Char → List Char → Bool
  | [], _ => true
  | _ :: _, [] => false
  | a :: as, b :: bs => a == b && chunkLe as bs

/-- Test that `needle` occurs as a contiguous chunk of the list
(Python substring containment over the character sequence). -/
def hasChunk (needle : List Char) : List Char → Bool
  | [] => needle.isEmpty
  | c :: rest => chunkLe needle (c :: rest) || hasChunk needle rest

/-- Python `needle in hay` on strings. -/
def strContains (hay needle : String) : Bool :=
  hasChunk needle.data hay.data

/-- Python `hay.startswith(pre)`. -/
def strStarts (hay pre : String) : Bool :=
  chunkLe pre.data hay.data

/-- Known no-reply local parts skipped by the inbound filter
(email_monitor.py SKIP_SENDERS). -/
def SKIP_SENDERS : List String :=
  ["noreply", "no-reply", "postmaster", "mailer-daemon",
   "account-security-noreply", "notifications", "member_services"]

/-- Known system domains skipped by the inbound filter
(email_monitor.py SKIP_DOMAINS). -/
def SKIP_DOMAINS : List String :=
  ["accountprotection.microsoft.com"]

/-- Inbound filter from email_monitor.py (the underscore-named skip check):
rejects known no-reply local parts, known system domains, subjects carrying
the system's own ticket marker, and bounce-backs. -/
def should_skip (address subject : String) : Bool :=
  let address := address.toLower
  let lp := (address.splitOn "@").headD ""
  let domain := (address.splitOn "@").getLastD ""
  SKIP_SENDERS.contains lp ||
  SKIP_DOMAINS.contains domain ||
  strContains subject "[Ticket:" ||
  strStarts subject.toLower "undeliverable:"

/-- One entry of the routing table (config: assignment_group, priority,
sla_hours, keyed by category). -/
structure RoutingRule where
  assignment_group : String
  priority : Int
  sla_hours : Int
deriving DecidableEq

/-- The routing result of router.py route_email. -/
structure RoutingDecision where
  assignment_group : String
  priority : Int
  sla_hours : Int
  category : String
deriving DecidableEq

/-- Priority adjustment from router.py lines 37-41: decrement for urgency,
then independently for low confidence, each clamped at 1 by max. -/
def adjustPriority (c : Classification) (p : Int) : Int :=
  let p1 := if c.is_urgent then max 1 (p - 1) else p
  if c.confidence < 7/10 then max 1 (p1 - 1) else p1

/-- route_email from router.py. The routing table is passed explicitly
(load_routing_rules reads it from a configuration file). The `none` result
models the KeyError raised when the resolved category, after the fallback to
"general", is absent from the table. -/
def route_email (rules : List (String × RoutingRule)) (c : Classification) :
    Option RoutingDecision :=
  let category := if (rules.lookup c.category).isSome then c.category else "general"
  match rules.lookup category with
  | none => none
  | some rule =>
    some { assignment_group := rule.assignment_group,
           priority := adjustPriority c rule.priority,
           sla_hours := rule.sla_hours,
           category := category }

/-- The fields of an inbound email dict used by the pipeline. -/
structure EmailInput where
  id : Option String
  fromAddr : String
  sender_name : Option String
  subject : String
  body : String
deriving DecidableEq

/-- The variables bound into the acknowledgement template by
acknowledger.py generate_ack; the rendered html body is embedded as this
record (the template file itself is configuration, not code). -/
structure AckBody where
  sender_name : String
  subject : String
  category : String
  ticket_id : String
  assignment_group : String
  sla_hours : Int
deriving DecidableEq

/-- The acknowledgement payload returned by generate_ack. -/
structure AckMessage where
  toAddr : String
  subject : String
  body : AckBody
deriving DecidableEq

/-- generate_ack from acknowledger.py. -/
def generate_ack (email : EmailInput) (c : Classification) (r : RoutingDecision)
    (ticket_id : String) : AckMessage :=
  { toAddr := email.fromAddr,
    subject := "Re: " ++ email.subject ++ " [Ticket: " ++ ticket_id ++ "]",
    body := { sender_name := email.sender_name.getD email.fromAddr,
              subject := email.subject,
              category := c.category,
              ticket_id := ticket_id,
              assignment_group := r.assignment_group,
              sla_hours := r.sla_hours } }

/-- The parts of the ticketing system's HTTP response that create_ticket
reads: the status code and, on 201, the incident number in the json. -/
structure HttpResponse where
  status_code : Int
  number : String
deriving DecidableEq

/-- create_ticket from ticket_creator.py, as a function of the outcome of
the HTTP POST to the ticketing system. `Except.error` is a raised requests
exception (network failure), `Except.ok` a received response. The source
has no try/except around the POST, so a raised exception propagates
unchanged; a non-201 response becomes the FAILED- sentinel. -/
def create_ticket (postResult : Except String HttpResponse) : Except String String :=
  match postResult with
  | .error e => .error e
  | .ok resp =>
    if resp.status_code = 201 then .ok resp.number
    else .ok ("FAILED-" ++ toString resp.status_code)

/-- One row of the audit_log table (db/audit.py). -/
structure AuditRecord where
  email_id : String
  sender : String
  subject : String
  category : String
  confidence : ℚ
  summary : String
  is_urgent : Bool
  assignment_group : String
  priority : Int
  ticket_id : Option String
  status : String
  created_at : String
  resolution_notified : Bool
deriving DecidableEq

/-- log_event from db/audit.py: one INSERT appending a row, with the
status and resolution_notified columns at their defaults; `now` is the
insertion timestamp. -/
def log_event (email : EmailInput) (c : Classification) (r : RoutingDecision)
    (ticket_id : Option String) (now : String) (store : List AuditRecord) :
    List AuditRecord :=
  store ++ [{ email_id := email.id.getD "unknown",
              sender := email.fromAddr,
              subject := email.subject,
              category := c.category,
              confidence := c.confidence,
              summary := c.summary,
              is_urgent := c.is_urgent,
              assignment_group := r.assignment_group,
              priority := r.priority,
              ticket_id := ticket_id,
              status := "processed",
              created_at := now,
              resolution_notified := false }]

/-- get_unnotified_tickets from db/audit.py: rows with a non-null ticket id
and resolution_notified = 0. -/
def get_unnotified_tickets (store : List AuditRecord) : List AuditRecord :=
  store.filter (fun r => r.ticket_id.isSome && !r.resolution_notified)

/-- mark_resolution_notified from db/audit.py: UPDATE setting
resolution_notified = 1 on every row whose ticket_id equals the argument. -/
def mark_resolution_notified (tid : String) (store : List AuditRecord) :
    List AuditRecord :=
  store.map (fun r =>
    if r.ticket_id = some tid then { r with resolution_notified := true } else r)

/-- The fields of a ticket-query response read by the poller
(resolution_checker.py): the state code and the close notes, each possibly
absent from the returned json row. -/
structure TicketData where
  state : Option String
  close_notes : Option String
deriving DecidableEq

/-- Python str() applied to the value of a possibly missing key. -/
def pyStr : Option String → String
  | some s => s
  | none => "None"

/-- Python str.title over the character sequence: a letter that follows a
letter is lowered, any other letter is uppercased. -/
def pyTitle (s : String) : String :=
  String.mk ((s.data.foldl (fun acc c =>
    ((if acc.2 then c.toLower else c.toUpper) :: acc.1, c.isAlpha)) ([], false)).1.reverse)

/-- The display name the poller derives from the stored sender address
(resolution_checker.py line 100). -/
def senderName (sender : String) : String :=
  pyTitle ((sender.splitOn "@").headD "")

/-- The variables bound into the resolution template by
generate_resolution_email; the rendered html body is embedded as this
record (the template file itself is configuration, not code). -/
structure ResolutionBody where
  sender_name : String
  ticket_id : String
  subject : String
  resolution_notes : String
deriving DecidableEq

/-- The resolution notification payload. -/
structure EmailMessage where
  toAddr : String
  subject : String
  body : ResolutionBody
deriving DecidableEq

/-- generate_resolution_email from resolution_checker.py: an empty (falsy)
resolution_notes string falls back to the generic message. -/
def generate_resolution_email (sender sender_name subject ticket_id resolution_notes : String) :
    EmailMessage :=
  { toAddr := sender,
    subject := "Resolved: " ++ subject ++ " [Ticket: " ++ ticket_id ++ "]",
    body := { sender_name := sender_name,
              ticket_id := ticket_id,
              subject := subject,
              resolution_notes :=
                if resolution_notes = "" then "Resolved by support team." else resolution_notes } }

/-- The resolution email the poller builds for one audit entry and one
ticket-query response (resolution_checker.py lines 96-108); close_notes
defaults to the empty string when the key is absent. -/
def resolutionEmailFor (e : AuditRecord) (tid : String) (td : TicketData) : EmailMessage :=
  generate_resolution_email e.sender (senderName e.sender) e.subject tid (td.close_notes.getD "")

/-- What one loop iteration of the poller does with one entry: mark a
sentinel, send a notification and mark, or skip. -/
inductive Outcome where
  | markOnly (tid : String)
  | sendAndMark (tid : String) (email : EmailMessage)
  | skip
deriving DecidableEq

/-- One iteration of the loop in check_resolved_tickets (lines 84-120).
`query` is the ticketing collaborator (`none` = query failure, exactly as
the underscore-named state getter returns None on any error); `send` is the
transport send (`false` = send_reply raised, caught by the except clause in
lines 119-120). -/
def handleEntry (query : String → Option TicketData) (send : EmailMessage → Bool)
    (e : AuditRecord) : Outcome :=
  match e.ticket_id with
  | none => .skip
  | some tid =>
    if strStarts tid "FAILED-" then .markOnly tid
    else
      match query tid with
      | none => .skip
      | some td =>
        if pyStr td.state = "6" then
          if send (resolutionEmailFor e tid td) then .sendAndMark tid (resolutionEmailFor e tid td)
          else .skip
        else .skip

/-- The store/sent-list update for one entry of the cycle's snapshot. -/
def cycleStep (query : String → Option TicketData) (send : EmailMessage → Bool)
    (acc : List AuditRecord × List EmailMessage) (e : AuditRecord) :
    List AuditRecord × List EmailMessage :=
  match handleEntry query send e with
  | .markOnly tid => (mark_resolution_notified tid acc.1, acc.2)
  | .sendAndMark tid em => (mark_resolution_notified tid acc.1, acc.2 ++ [em])
  | .skip => acc

/-- check_resolved_tickets from resolution_checker.py: one poller cycle over
the snapshot of unnotified entries, returning the updated store and the
notifications successfully sent during the cycle. -/
def check_resolved_tickets (query : String → Option TicketData)
    (send : EmailMessage → Bool) (store : List AuditRecord) :
    List AuditRecord × List EmailMessage :=
  (get_unnotified_tickets store).foldl (cycleStep query send) (store, [])

/-- The ticket id an outcome marks as notified, if any. -/
def outcomeTid : Outcome → Option String
  | .markOnly tid => some tid
  | .sendAndMark tid _ => some tid
  | .skip => none

/-- The notification an outcome sends, if any. -/
def outcomeEmail : Outcome → Option EmailMessage
  | .sendAndMark _ em => some em
  | _ => none

/-- The ticket ids a cycle over `entries` marks as notified. -/
def markedTids (query : String → Option TicketData) (send : EmailMessage → Bool)
    (entries : List AuditRecord) : List String :=
  entries.filterMap (fun e => outcomeTid (handleEntry query send e))

/-- The notifications a cycle over `entries` successfully sends. -/
def sentEmails (query : String → Option TicketData) (send : EmailMessage → Bool)
    (entries : List AuditRecord) : List EmailMessage :=
  entries.filterMap (fun e => outcomeEmail (handleEntry query send e))

/-- Marking a list of ticket ids in order. -/
def applyMarks (tids : List String) (store : List AuditRecord) : List AuditRecord :=
  tids.foldl (fun st t => mark_resolution_notified t st) store

/-- The per-record effect of marking every ticket id in `tids`. -/
def anyMarkFn (tids : List String) (r : AuditRecord) : AuditRecord :=
  if tids.any (fun t => r.ticket_id == some t) then { r with resolution_notified := true } else r

/-- The per-record effect of one whole poller cycle on the store. -/
def cycleMarkFn (query : String → Option TicketData) (send : EmailMessage → Bool)
    (store : List AuditRecord) : AuditRecord → AuditRecord :=
  anyMarkFn (markedTids query send (get_unnotified_tickets store))

/-- send_ack_node from orchestrator.py: in live mode the send_reply call is
wrapped in try/except, so its outcome `sendResult` cannot affect the node's
result; mark_as_read is then called outside any try block whenever the email
id is present, non-empty (truthy) and not a test id, and its failure
propagates out of the node. -/
def send_ack_node (live_mode : Bool) (emailId : Option String)
    (sendResult markReadResult : Except String Unit) : Except String Unit :=
  if !live_mode then .ok ()
  else
    match emailId with
    | none => .ok ()
    | some eid =>
      if eid == "" || strStarts eid "test-" then .ok ()
      else markReadResult

/-- The tail of the pipeline graph: the deliver node (send_ack_node) followed
by the persist node (log_node). An exception raised in the deliver node
propagates out of the graph run and the persist node never executes. -/
def deliver_then_persist (live_mode : Bool) (email : EmailInput)
    (c : Classification) (r : RoutingDecision) (ticket_id : String)
    (sendResult markReadResult : Except String Unit) (now : String)
    (store : List AuditRecord) : Except String (List AuditRecord) :=
  match send_ack_node live_mode email.id sendResult markReadResult with
  | .error e => .error e
  | .ok _ => .ok (log_event email c r (some ticket_id) now store)

/-! Structural lemmas. -/

/-- Looking a key up in an association list finds a member pair. -/
lemma lookup_mem {α β : Type} [BEq α] [LawfulBEq α] {l : List (α × β)} {k : α} {b : β}
    (h : l.lookup k = some b) : (k, b) ∈ l := by
  rcases List.lookup_eq_some_iff.mp h with ⟨l1, l2, rfl, -⟩
  simp

/-- The UPDATE only ever raises the flag: it maps each row to the same row
with the flag replaced by its old value or-ed with the ticket match. -/
lemma mark_eq_flagOr (tid : String) (st : List AuditRecord) :
    mark_resolution_notified tid st =
      st.map (fun r =>
        { r with resolution_notified := r.resolution_notified || (r.ticket_id == some tid) }) := by
  unfold mark_resolution_notified
  apply List.map_congr_left
  intro r _
  by_cases h : r.ticket_id = some tid
  · simp [h]
  · have hb : (r.ticket_id == some tid) = false := by simp [h]
    cases r
    simp [h, hb]

/-- A row of the updated store that still has a false flag is an untouched
row of the old store, and its ticket is not the marked one. -/
lemma mem_mark_of_flag_false {r : AuditRecord} {t : String} {st : List AuditRecord}
    (hm : r ∈ mark_resolution_notified t st) (hf : r.resolution_notified = false) :
    r ∈ st ∧ r.ticket_id ≠ some t := by
  unfold mark_resolution_notified at hm
  rcases List.mem_map.mp hm with ⟨r0, hr0, heq⟩
  by_cases h : r0.ticket_id = some t
  · rw [if_pos h] at heq
    rw [← heq] at hf
    simp at hf
  · rw [if_neg h] at heq
    rw [← heq]
    exact ⟨hr0, h⟩

/-- A row that still has a false flag after a sequence of marks is an
untouched row of the old store whose ticket none of the marks named. -/
lemma mem_applyMarks_of_flag_false :
    ∀ (tids : List String) {r : AuditRecord} {st : List AuditRecord},
      r ∈ applyMarks tids st → r.resolution_notified = false →
      r ∈ st ∧ ∀ t ∈ tids, r.ticket_id ≠ some t := by
  intro tids
  induction tids with
  | nil =>
    intro r st hm _
    exact ⟨hm, by simp⟩
  | cons t ts ih =>
    intro r st hm hf
    have h1 := ih hm hf
    have h2 := mem_mark_of_flag_false h1.1 hf
    refine ⟨h2.1, ?_⟩
    intro t' ht'
    rcases List.mem_cons.mp ht' with h | h
    · rw [h]; exact h2.2
    · exact h1.2 t' h

/-- The poller's fold splits into the per-entry outcomes: marks applied to
the store, successful sends collected in order. -/
lemma cycle_foldl (query : String → Option TicketData) (send : EmailMessage → Bool) :
    ∀ (entries : List AuditRecord) (st : List AuditRecord) (acc : List EmailMessage),
      entries.foldl (cycleStep query send) (st, acc) =
        (applyMarks (markedTids query send entries) st,
         acc ++ sentEmails query send entries) := by
  intro entries
  induction entries with
  | nil =>
    intro st acc
    simp [markedTids, sentEmails, applyMarks]
  | cons e rest ih =>
    intro st acc
    rw [List.foldl_cons]
    cases h : handleEntry query send e with
    | markOnly tid =>
      simp only [cycleStep, h]
      rw [ih]
      simp [markedTids, sentEmails, applyMarks, h, outcomeTid, outcomeEmail]
    | sendAndMark tid em =>
      simp only [cycleStep, h]
      rw [ih]
      simp [markedTids, sentEmails, applyMarks, h, outcomeTid, outcomeEmail]
    | skip =>
      simp only [cycleStep, h]
      rw [ih]
      simp [markedTids, sentEmails, h, outcomeTid, outcomeEmail]

/-- One poller cycle equals: mark every ticket the snapshot decides to mark,
and return the snapshot's successful sends. -/
lemma check_spec (query : String → Option TicketData) (send : EmailMessage → Bool)
    (store : List AuditRecord) :
    check_resolved_tickets query send store =
      (applyMarks (markedTids query send (get_unnotified_tickets store)) store,
       sentEmails query send (get_unnotified_tickets store)) := by
  unfold check_resolved_tickets
  simpa using cycle_foldl query send (get_unnotified_tickets store) store []

/-- Applying a sequence of marks acts pointwise on the store. -/
lemma applyMarks_eq_map :
    ∀ (tids : List String) (st : List AuditRecord),
      applyMarks tids st = st.map (anyMarkFn tids) := by
  intro tids
  induction tids with
  | nil =>
    intro st
    have h1 : st.map (anyMarkFn []) = st.map id := by
      apply List.map_congr_left
      intro r _
      simp [anyMarkFn]
    rw [show applyMarks [] st = st from rfl, h1, List.map_id]
  | cons t ts ih =>
    intro st
    have h0 : applyMarks (t :: ts) st = applyMarks ts (mark_resolution_notified t st) := rfl
    rw [h0, ih]
    unfold mark_resolution_notified
    rw [List.map_map]
    apply List.map_congr_left
    intro r _
    by_cases h : r.ticket_id = some t
    · have hb : (r.ticket_id == some t) = true := by simp [h]
      by_cases h2 : ts.any (fun t' => r.ticket_id == some t') = true
      · simp [Function.comp, anyMarkFn, h, h2, List.any_cons, hb]
      · simp [Function.comp, anyMarkFn, h, h2, List.any_cons, hb]
    · have hb : (r.ticket_id == some t) = false := by simp [h]
      simp [Function.comp, anyMarkFn, h, List.any_cons, hb]

/-- A record none of whose marks name its ticket is untouched. -/
lemma anyMarkFn_eq_self {tids : List String} {r : AuditRecord}
    (h : ∀ t ∈ tids, r.ticket_id ≠ some t) : anyMarkFn tids r = r := by
  unfold anyMarkFn
  rw [if_neg]
  intro hc
  rcases List.any_eq_true.mp hc with ⟨t, ht, hb⟩
  exact h t ht (by simpa using hb)

/-- A record whose ticket one of the marks names ends flagged. -/
lemma anyMarkFn_flags {tids : List String} {r : AuditRecord} {t : String}
    (ht : t ∈ tids) (h : r.ticket_id = some t) :
    (anyMarkFn tids r).resolution_notified = true := by
  unfold anyMarkFn
  rw [if_pos (List.any_eq_true.mpr ⟨t, ht, by simp [h]⟩)]

/-- Marking never changes the ticket id of a record. -/
lemma anyMarkFn_ticket_id (tids : List String) (r : AuditRecord) :
    (anyMarkFn tids r).ticket_id = r.ticket_id := by
  unfold anyMarkFn
  split <;> rfl

/-- An entry of the snapshot contributes its outcome's ticket to the marks. -/
lemma tid_mem_markedTids {query : String → Option TicketData} {send : EmailMessage → Bool}
    {entries : List AuditRecord} {e : AuditRecord} (he : e ∈ entries) {tid : String}
    (h : outcomeTid (handleEntry query send e) = some tid) :
    tid ∈ markedTids query send entries :=
  List.mem_filterMap.mpr ⟨e, he, h⟩

/-- Inversion: a markOnly outcome comes from a sentinel ticket. -/
lemma handleEntry_markOnly_inv {query : String → Option TicketData}
    {send : EmailMessage → Bool} {e : AuditRecord} {tid : String}
    (h : handleEntry query send e = .markOnly tid) :
    e.ticket_id = some tid ∧ strStarts tid "FAILED-" = true := by
  unfold handleEntry at h
  split at h
  · simp at h
  · next t heq =>
    split at h
    · next hs =>
      cases h
      exact ⟨heq, hs⟩
    · next hs =>
      split at h
      · simp at h
      · next td hq =>
        split at h
        · split at h <;> simp at h
        · simp at h

/-- Inversion: a sendAndMark outcome comes from a non-sentinel ticket whose
query returned the resolved state and whose send succeeded. -/
lemma handleEntry_sendAndMark_inv {query : String → Option TicketData}
    {send : EmailMessage → Bool} {e : AuditRecord} {tid : String} {em : EmailMessage}
    (h : handleEntry query send e = .sendAndMark tid em) :
    e.ticket_id = some tid ∧ strStarts tid "FAILED-" = false ∧
      ∃ td, query tid = some td ∧ pyStr td.state = "6" ∧
        em = resolutionEmailFor e tid td ∧ send em = true := by
  unfold handleEntry at h
  split at h
  · simp at h
  · next t heq =>
    split at h
    · simp at h
    · next hs =>
      split at h
      · simp at h
      · next td hq =>
        split at h
        · next hres =>
          split at h
          · next hsend =>
            cases h
            exact ⟨heq, by simpa using hs, td, hq, hres, rfl, hsend⟩
          · simp at h
        · simp at h

/-! Claim theorems. -/

/-- C6: Running a poller cycle twice in a row, with no change to the audit
store other than the first cycle's own marks and with the same collaborator
responses, sends zero notifications during the second cycle: every ticket
notified in the first cycle is marked and therefore excluded from the second
cycle's unnotified listing. -/
theorem second_cycle_sends_nothing (query : String → Option TicketData)
    (send : EmailMessage → Bool) (store : List AuditRecord) :
    (check_resolved_tickets query send
        (check_resolved_tickets query send store).1).2 = [] := by
  rw [check_spec query send (check_resolved_tickets query send store).1]
  unfold sentEmails
  apply List.filterMap_eq_nil_iff.mpr
  intro e he
  unfold get_unnotified_tickets at he
  have he' := List.mem_filter.mp he
  have hf : e.resolution_notified = false := by
    have h2 := he'.2
    simp at h2
    exact h2.2
  have hmem : e ∈ (check_resolved_tickets query send store).1 := he'.1
  rw [check_spec query send store] at hmem
  have hm := mem_applyMarks_of_flag_false _ hmem hf
  have he0 : e ∈ get_unnotified_tickets store :=
    List.mem_filter.mpr ⟨hm.1, he'.2⟩
  cases ho : handleEntry query send e with
  | markOnly tid => rfl
  | skip => rfl
  | sendAndMark tid em =>
    exfalso
    have hinv := handleEntry_sendAndMark_inv ho
    have htm : tid ∈ markedTids query send (get_unnotified_tickets store) :=
      tid_mem_markedTids he0 (by rw [ho]; rfl)
    exact hm.2 tid htm hinv.1

/-- C4: For every unnotified audit entry whose ticket id is a failure
sentinel (FAILED- prefixed), the poller cycle marks that ticket notified and
continues: the entry's outcome is the immediate mark for every possible
collaborator (so no ticketing query and no send can influence it), every
record carrying that ticket id is flagged in the resulting store, and no
notification is emitted for any entry carrying that ticket id. -/
theorem sentinel_marked_without_query (query : String → Option TicketData)
    (send : EmailMessage → Bool) (store : List AuditRecord) (tid : String)
    (e : AuditRecord) (he : e ∈ get_unnotified_tickets store)
    (ht : e.ticket_id = some tid) (hsent : strStarts tid "FAILED-" = true) :
    (∀ (q' : String → Option TicketData) (s' : EmailMessage → Bool),
        handleEntry q' s' e = .markOnly tid) ∧
    (∀ r ∈ (check_resolved_tickets query send store).1,
        r.ticket_id = some tid → r.resolution_notified = true) ∧
    (∀ e' ∈ get_unnotified_tickets store, e'.ticket_id = some tid →
        outcomeEmail (handleEntry query send e') = none) := by
  have hout : ∀ (q' : String → Option TicketData) (s' : EmailMessage → Bool)
      (e' : AuditRecord), e'.ticket_id = some tid →
      handleEntry q' s' e' = .markOnly tid := by
    intro q' s' e' ht'
    unfold handleEntry
    rw [ht']
    simp [hsent]
  refine ⟨fun q' s' => hout q' s' e ht, ?_, ?_⟩
  · intro r hr hrt
    rw [check_spec query send store] at hr
    rw [applyMarks_eq_map] at hr
    rcases List.mem_map.mp hr with ⟨r0, hr0, heq⟩
    have htm : tid ∈ markedTids query send (get_unnotified_tickets store) :=
      tid_mem_markedTids he (by rw [hout query send e ht]; rfl)
    have hrt0 : r0.ticket_id = some tid := by
      rw [← heq] at hrt
      rw [anyMarkFn_ticket_id] at hrt
      exact hrt
    rw [← heq]
    exact anyMarkFn_flags htm hrt0
  · intro e' he' ht'
    rw [hout query send e' ht']
    rfl

/-- C7: Within one poller cycle each ticket is handled independently. If the
ticketing query for a non-sentinel ticket fails, or every send attempt for
it fails, then that ticket is left unnotified for the cycle (its records are
untouched), while the cycle still processes every other entry of the
snapshot: the resulting store is the pointwise marking of the old one and
every entry whose handling reaches a successful send contributes its
notification to the cycle's output. -/
theorem poller_fail_soft (query : String → Option TicketData)
    (send : EmailMessage → Bool) (store : List AuditRecord) (tid : String)
    (hns : strStarts tid "FAILED-" = false)
    (hfail : query tid = none ∨
      ∀ e ∈ get_unnotified_tickets store, e.ticket_id = some tid →
        ∀ td, query tid = some td → pyStr td.state = "6" →
          send (resolutionEmailFor e tid td) = false) :
    ((check_resolved_tickets query send store).1
        = store.map (cycleMarkFn query send store)) ∧
    (∀ r : AuditRecord, r.ticket_id = some tid →
        cycleMarkFn query send store r = r) ∧
    ((check_resolved_tickets query send store).2
        = sentEmails query send (get_unnotified_tickets store)) ∧
    (∀ e ∈ get_unnotified_tickets store, ∀ t em,
        handleEntry query send e = .sendAndMark t em →
        em ∈ (check_resolved_tickets query send store).2) := by
  have hnm : ∀ t ∈ markedTids query send (get_unnotified_tickets store), t ≠ tid := by
    intro t htm heq
    subst heq
    rcases List.mem_filterMap.mp htm with ⟨e, he, hfe⟩
    cases ho : handleEntry query send e with
    | skip => rw [ho] at hfe; simp [outcomeTid] at hfe
    | markOnly t' =>
      rw [ho] at hfe
      have ht' : t' = t := by simpa [outcomeTid] using hfe
      subst ht'
      have hinv := handleEntry_markOnly_inv ho
      rw [hinv.2] at hns
      exact absurd hns (by simp)
    | sendAndMark t' em =>
      rw [ho] at hfe
      have ht' : t' = t := by simpa [outcomeTid] using hfe
      subst ht'
      rcases handleEntry_sendAndMark_inv ho with ⟨hte, -, td, hq, hres, hem, hsend⟩
      rcases hfail with hq0 | hall
      · rw [hq0] at hq; exact absurd hq (by simp)
      · have := hall e he hte td hq hres
        rw [hem] at hsend
        rw [this] at hsend
        exact absurd hsend (by simp)
  refine ⟨?_, ?_, ?_, ?_⟩
  · rw [check_spec query send store, applyMarks_eq_map]
    rfl
  · intro r hr
    apply anyMarkFn_eq_self
    intro t htm
    rw [hr]
    intro hc
    exact hnm t htm (by injection hc.symm)
  · rw [check_spec query send store]
  · intro e he t em h
    rw [check_spec query send store]
    exact List.mem_filterMap.mpr ⟨e, he, by rw [h]; rfl⟩

/-- C8: For an unnotified non-sentinel ticket whose queried state is the
resolved code "6", the poller renders a notification addressed to the stored
sender, with the close notes in the body defaulting to the generic message
when absent or empty; on a successful send the notification is emitted and
every record with that ticket is marked, on a failed send the entry is
skipped (no mark), and for any state other than "6" the entry is skipped. -/
theorem resolved_ticket_notified (query : String → Option TicketData)
    (send : EmailMessage → Bool) (store : List AuditRecord) (e : AuditRecord)
    (tid : String) (td : TicketData)
    (he : e ∈ get_unnotified_tickets store) (ht : e.ticket_id = some tid)
    (hns : strStarts tid "FAILED-" = false) (hq : query tid = some td) :
    ((resolutionEmailFor e tid td).toAddr = e.sender) ∧
    ((td.close_notes = none ∨ td.close_notes = some "") →
      (resolutionEmailFor e tid td).body.resolution_notes = "Resolved by support team.") ∧
    (∀ notes, td.close_notes = some notes → notes ≠ "" →
      (resolutionEmailFor e tid td).body.resolution_notes = notes) ∧
    (pyStr td.state = "6" → send (resolutionEmailFor e tid td) = true →
      handleEntry query send e = .sendAndMark tid (resolutionEmailFor e tid td) ∧
      resolutionEmailFor e tid td ∈ (check_resolved_tickets query send store).2 ∧
      (∀ r ∈ (check_resolved_tickets query send store).1,
          r.ticket_id = some tid → r.resolution_notified = true)) ∧
    (pyStr td.state = "6" → send (resolutionEmailFor e tid td) = false →
      handleEntry query send e = .skip) ∧
    (pyStr td.state ≠ "6" → handleEntry query send e = .skip) := by
  refine ⟨rfl, ?_, ?_, ?_, ?_, ?_⟩
  · rintro (h | h) <;>
      simp [resolutionEmailFor, generate_resolution_email, h]
  · intro notes hnotes hne
    simp [resolutionEmailFor, generate_resolution_email, hnotes, hne]
  · intro hres hsend
    have ho : handleEntry query send e = .sendAndMark tid (resolutionEmailFor e tid td) := by
      unfold handleEntry
      rw [ht]
      simp [hns, hq, hres, hsend]
    refine ⟨ho, ?_, ?_⟩
    · rw [check_spec query send store]
      exact List.mem_filterMap.mpr ⟨e, he, by rw [ho]; rfl⟩
    · intro r hr hrt
      rw [check_spec query send store, applyMarks_eq_map] at hr
      rcases List.mem_map.mp hr with ⟨r0, hr0, heq⟩
      have htm : tid ∈ markedTids query send (get_unnotified_tickets store) :=
        tid_mem_markedTids he (by rw [ho]; rfl)
      have hrt0 : r0.ticket_id = some tid := by
        rw [← heq, anyMarkFn_ticket_id] at hrt
        exact hrt
      rw [← heq]
      exact anyMarkFn_flags htm hrt0
  · intro hres hsend
    unfold handleEntry
    rw [ht]
    simp [hns, hq, hres, hsend]
  · intro hres
    unfold handleEntry
    rw [ht]
    simp [hns, hq, hres]

/-- C5: The resolution_notified flag is monotonic. markNotified maps each
record to itself with the flag or-ed with the ticket match — so it sets the
flag for every record carrying the ticket id, raises it only (never back to
false), and changes no other field; it is a no-op when the ticket id is
absent or all its records are already flagged; and log_event only appends a
fresh record (flag false), leaving existing records untouched. -/
theorem resolution_flag_monotonic (tid : String) (st : List AuditRecord)
    (email : EmailInput) (c : Classification) (r : RoutingDecision)
    (ot : Option String) (now : String) :
    (mark_resolution_notified tid st =
      st.map (fun rec =>
        { rec with resolution_notified := rec.resolution_notified || (rec.ticket_id == some tid) })) ∧
    ((∀ rec ∈ st, rec.ticket_id = some tid → rec.resolution_notified = true) →
      mark_resolution_notified tid st = st) ∧
    (∃ rec, log_event email c r ot now st = st ++ [rec] ∧
      rec.resolution_notified = false ∧ rec.ticket_id = ot) := by
  refine ⟨mark_eq_flagOr tid st, ?_, ?_⟩
  · intro hall
    unfold mark_resolution_notified
    have hfix : ∀ rec ∈ st,
        (if rec.ticket_id = some tid then { rec with resolution_notified := true } else rec) =
          id rec := by
      intro rec hrec
      by_cases h : rec.ticket_id = some tid
      · rw [if_pos h]
        have hflag := hall rec hrec h
        cases rec
        simp_all
      · rw [if_neg h]
        rfl
    rw [List.map_congr_left hfix, List.map_id]
  · exact ⟨_, rfl, rfl, rfl⟩

/-- Witness for C5 at a concrete store: marking a store whose only record
with the ticket is already flagged is a no-op. -/
theorem resolution_flag_monotonic_witness :
    mark_resolution_notified "INC0010001"
      [{ email_id := "test-001", sender := "test@test.com", subject := "Test",
         category := "general", confidence := 9/10, summary := "Test email",
         is_urgent := false, assignment_group := "Service Desk", priority := 3,
         ticket_id := some "INC0010001", status := "processed",
         created_at := "t0", resolution_notified := true }] =
      [{ email_id := "test-001", sender := "test@test.com", subject := "Test",
         category := "general", confidence := 9/10, summary := "Test email",
         is_urgent := false, assignment_group := "Service Desk", priority := 3,
         ticket_id := some "INC0010001", status := "processed",
         created_at := "t0", resolution_notified := true }] := by
  exact (resolution_flag_monotonic "INC0010001" _
    ⟨some "test-001", "test@test.com", none, "Test", ""⟩
    ⟨"general", 9/10, "Test email", false⟩
    ⟨"Service Desk", 3, 24, "general"⟩ (some "INC0010001") "t0").2.1
    (by intro rec hrec ht; simp at hrec; rw [hrec])

/-- The adjusted priority stays at least 1 when the base priority is. -/
lemma adjustPriority_ge_one {c : Classification} {p : Int} (hp : 1 ≤ p) :
    1 ≤ adjustPriority c p := by
  simp only [adjustPriority]
  split
  · split
    · exact le_max_left 1 _
    · exact le_max_left 1 _
  · split
    · exact le_max_left 1 _
    · exact hp

/-- C1: For every classification, the priority route_email returns is at
least 1 whenever every base priority of the table is (the configuration
table is quantified: the yaml file is data, constrained by the spec to
integer priorities with a general fallback). Both adjustments are clamped:
in particular a resolved entry of base priority 2 with is_urgent true and
confidence 0.5 yields priority exactly 1. -/
theorem route_priority_at_least_one (rules : List (String × RoutingRule))
    (c : Classification) (gr : RoutingRule)
    (hg : rules.lookup "general" = some gr)
    (hp : ∀ p ∈ rules, 1 ≤ p.2.priority) :
    (∃ d, route_email rules c = some d ∧ 1 ≤ d.priority) ∧
    (∀ rule, rules.lookup
        (if (rules.lookup c.category).isSome then c.category else "general") = some rule →
      rule.priority = 2 → c.is_urgent = true → c.confidence = 1/2 →
      ∃ d, route_email rules c = some d ∧ d.priority = 1) := by
  constructor
  · cases hlc : rules.lookup c.category with
    | some rule0 =>
      have hre : route_email rules c =
          some { assignment_group := rule0.assignment_group,
                 priority := adjustPriority c rule0.priority,
                 sla_hours := rule0.sla_hours, category := c.category } := by
        simp [route_email, hlc]
      exact ⟨_, hre, adjustPriority_ge_one (hp _ (lookup_mem hlc))⟩
    | none =>
      have hre : route_email rules c =
          some { assignment_group := gr.assignment_group,
                 priority := adjustPriority c gr.priority,
                 sla_hours := gr.sla_hours, category := "general" } := by
        simp [route_email, hlc, hg]
      exact ⟨_, hre, adjustPriority_ge_one (hp _ (lookup_mem hg))⟩
  · intro rule hrule hp2 hu hc2
    have hre : route_email rules c =
        some { assignment_group := rule.assignment_group,
               priority := adjustPriority c rule.priority,
               sla_hours := rule.sla_hours,
               category := if (rules.lookup c.category).isSome then c.category
                           else "general" } := by
      simp [route_email, hrule]
    refine ⟨_, hre, ?_⟩
    show adjustPriority c rule.priority = 1
    simp only [adjustPriority, hp2, hu, hc2, if_true]
    norm_num

/-- Witness for C1: a concrete table with base priority 2 and an urgent,
low-confidence classification yields priority 1 (and in particular at
least 1). -/
theorem route_priority_at_least_one_witness :
    (∃ d, route_email [("general", ⟨"Service Desk", 2, 24⟩)]
        ⟨"connectivity", 1/2, "vpn", true⟩ = some d ∧ 1 ≤ d.priority) ∧
    (∃ d, route_email [("general", ⟨"Service Desk", 2, 24⟩)]
        ⟨"connectivity", 1/2, "vpn", true⟩ = some d ∧ d.priority = 1) := by
  have h := route_priority_at_least_one [("general", ⟨"Service Desk", 2, 24⟩)]
    ⟨"connectivity", 1/2, "vpn", true⟩ ⟨"Service Desk", 2, 24⟩ rfl
    (by rintro p hp; simp at hp; rw [hp]; norm_num)
  exact ⟨h.1, h.2 ⟨"Service Desk", 2, 24⟩ rfl rfl rfl rfl⟩

/-- C9: An unknown category resolves to the general entry — base priority,
SLA hours and assignment group are all taken from the general table row —
and for a known category the SLA hours and assignment group of the decision
are exactly those of the resolved entry, unmodified by the adjustments
(only the priority passes through adjustPriority). -/
theorem route_fallback_and_table_fields (rules : List (String × RoutingRule))
    (c : Classification) (gr : RoutingRule)
    (hg : rules.lookup "general" = some gr) :
    (rules.lookup c.category = none →
      route_email rules c = some { assignment_group := gr.assignment_group,
                                   priority := adjustPriority c gr.priority,
                                   sla_hours := gr.sla_hours,
                                   category := "general" }) ∧
    (∀ rule, rules.lookup c.category = some rule →
      route_email rules c = some { assignment_group := rule.assignment_group,
                                   priority := adjustPriority c rule.priority,
                                   sla_hours := rule.sla_hours,
                                   category := c.category }) := by
  constructor
  · intro h
    simp [route_email, h, hg]
  · intro rule h
    simp [route_email, h]

/-- Witness for C9: an unknown category falls back to the general entry and
keeps its SLA hours and assignment group unmodified. -/
theorem route_fallback_and_table_fields_witness :
    route_email [("general", ⟨"Service Desk", 3, 24⟩)] ⟨"gibberish", 9/10, "s", false⟩ =
      some ⟨"Service Desk", 3, 24, "general"⟩ := by
  have h := (route_fallback_and_table_fields [("general", ⟨"Service Desk", 3, 24⟩)]
    ⟨"gibberish", 9/10, "s", false⟩ ⟨"Service Desk", 3, 24⟩ rfl).1 rfl
  rw [h]
  norm_num [adjustPriority]

/-- Counterexample to C2 as stated: a network failure (an exception raised
by the HTTP POST) is not converted into a FAILED- sentinel — create_ticket
has no try/except, so the error propagates and the stage aborts the run
instead of continuing. -/
theorem create_ticket_network_error_propagates :
    create_ticket (Except.error "requests.exceptions.ConnectionError") =
      Except.error "requests.exceptions.ConnectionError" ∧
    ¬ ∃ ticket_id, create_ticket (Except.error "requests.exceptions.ConnectionError") =
      Except.ok ticket_id := by
  refine ⟨rfl, ?_⟩
  rintro ⟨t, h⟩
  simp [create_ticket] at h

/-- C2 amended: a received non-201 ticketing response is mapped to the
failure sentinel FAILED-code and the run continues; a received 201 response
yields the ticket number; but a network failure — an exception raised by the
POST itself — propagates out of create_ticket unhandled and aborts the run. -/
theorem create_ticket_amended (postResult : Except String HttpResponse) :
    (∀ resp, postResult = Except.ok resp → resp.status_code ≠ 201 →
      create_ticket postResult = Except.ok ("FAILED-" ++ toString resp.status_code)) ∧
    (∀ resp, postResult = Except.ok resp → resp.status_code = 201 →
      create_ticket postResult = Except.ok resp.number) ∧
    (∀ e, postResult = Except.error e → create_ticket postResult = Except.error e) := by
  refine ⟨?_, ?_, ?_⟩
  · intro resp h hne
    subst h
    simp [create_ticket, hne]
  · intro resp h h201
    subst h
    simp [create_ticket, h201]
  · intro e h
    subst h
    rfl

/-- Witness for C2 amended: an HTTP 500 response yields the FAILED-500
sentinel inside a continuing run. -/
theorem create_ticket_amended_witness :
    create_ticket (Except.ok ⟨500, ""⟩) = Except.ok "FAILED-500" := by
  have h := (create_ticket_amended (Except.ok ⟨500, ""⟩)).1 ⟨500, ""⟩ rfl (by decide)
  exact h.trans (by rfl)

/-- Counterexample to C3 as stated: in live mode, a failure of the
mark-as-read call of the Deliver stage (which sits outside the try block)
aborts the run with the error, so the Persist stage never writes the
AuditRecord for that run. -/
theorem deliver_mark_read_failure_aborts :
    deliver_then_persist true
      ⟨some "AAMkADA1", "john@company.com", some "John", "VPN not connecting", "body"⟩
      ⟨"connectivity", 98/100, "vpn", false⟩
      ⟨"Network Support", 2, 4, "connectivity"⟩
      "INC0010001" (Except.ok ()) (Except.error "HTTPError 503")
      "2024-01-01T00:00:00" [] = Except.error "HTTPError 503" := by
  rfl

/-- C3 amended: the outcome of sending the acknowledgement is caught and can
never affect the run — when the deliver node completes (in particular when
only the send failed), the Persist stage still writes the AuditRecord; but a
failure of the mark-as-read call, made in live mode for a present, non-empty,
non-test message id, aborts the run and nothing is persisted. -/
theorem deliver_send_failure_still_persists (live_mode : Bool)
    (email : EmailInput) (c : Classification) (r : RoutingDecision)
    (ticket_id : String) (sendR sendR' markR : Except String Unit)
    (now : String) (store : List AuditRecord) :
    (deliver_then_persist live_mode email c r ticket_id sendR markR now store =
      deliver_then_persist live_mode email c r ticket_id sendR' markR now store) ∧
    (markR = Except.ok () →
      deliver_then_persist live_mode email c r ticket_id sendR markR now store =
        Except.ok (log_event email c r (some ticket_id) now store)) ∧
    (∀ eid err, live_mode = true → email.id = some eid → (eid == "") = false →
      strStarts eid "test-" = false → markR = Except.error err →
      deliver_then_persist live_mode email c r ticket_id sendR markR now store =
        Except.error err) := by
  refine ⟨rfl, ?_, ?_⟩
  · intro h
    subst h
    unfold deliver_then_persist send_ack_node
    cases live_mode
    · rfl
    · cases hid : email.id with
      | none => rfl
      | some eid =>
        by_cases hc : (eid == "" || strStarts eid "test-") = true
        · simp [hc]
        · simp [hc]
  · intro eid err hl hid hne hts hm
    subst hl
    subst hm
    unfold deliver_then_persist send_ack_node
    rw [hid]
    simp [hne, hts]

/-- Witness for C3 amended: with a failed send and a successful mark-as-read
the record is still persisted, and with a failed mark-as-read the run aborts. -/
theorem deliver_send_failure_still_persists_witness :
    (deliver_then_persist true ⟨some "BBMkBDA2", "a@b.co", none, "s", "b"⟩
        ⟨"general", 1, "sum", false⟩ ⟨"Service Desk", 3, 24, "general"⟩
        "INC2" (Except.error "send fail") (Except.ok ()) "t1" [] =
      Except.ok (log_event ⟨some "BBMkBDA2", "a@b.co", none, "s", "b"⟩
        ⟨"general", 1, "sum", false⟩ ⟨"Service Desk", 3, 24, "general"⟩
        (some "INC2") "t1" [])) ∧
    (deliver_then_persist true ⟨some "BBMkBDA2", "a@b.co", none, "s", "b"⟩
        ⟨"general", 1, "sum", false⟩ ⟨"Service Desk", 3, 24, "general"⟩
        "INC2" (Except.error "send fail") (Except.error "mark fail") "t1" [] =
      Except.error "mark fail") := by
  constructor
  · exact (deliver_send_failure_still_persists true
      ⟨some "BBMkBDA2", "a@b.co", none, "s", "b"⟩
      ⟨"general", 1, "sum", false⟩ ⟨"Service Desk", 3, 24, "general"⟩
      "INC2" (Except.error "send fail") (Except.ok ()) (Except.ok ()) "t1" []).2.1 rfl
  · exact (deliver_send_failure_still_persists true
      ⟨some "BBMkBDA2", "a@b.co", none, "s", "b"⟩
      ⟨"general", 1, "sum", false⟩ ⟨"Service Desk", 3, 24, "general"⟩
      "INC2" (Except.error "send fail") (Except.ok ()) (Except.error "mark fail")
      "t1" []).2.2 "BBMkBDA2" "mark fail" rfl rfl (by decide) (by decide) rfl

/-- A list is an initial segment of itself followed by anything. -/
lemma chunkLe_refl_append : ∀ (l post : List Char), chunkLe l (l ++ post) = true := by
  intro l
  induction l with
  | nil => intro post; rfl
  | cons a as ih =>
    intro post
    simp [chunkLe, ih]

/-- A nonempty chunk is found inside any list that contains it verbatim. -/
lemma hasChunk_of_append (needle : List Char) :
    ∀ (pre post : List Char), needle ≠ [] →
      hasChunk needle (pre ++ (needle ++ post)) = true := by
  intro pre
  induction pre with
  | nil =>
    intro post hne
    cases needle with
    | nil => exact absurd rfl hne
    | cons c cs =>
      show hasChunk (c :: cs) (c :: (cs ++ post)) = true
      have h1 : chunkLe (c :: cs) (c :: (cs ++ post)) = true :=
        chunkLe_refl_append (c :: cs) post
      simp [hasChunk, h1]
  | cons a pre' ih =>
    intro post hne
    show hasChunk needle (a :: (pre' ++ (needle ++ post))) = true
    simp [hasChunk, ih post hne]

/-- Any string whose characters decompose around the ticket marker contains
the marker. -/
lemma strContains_marker_of_parts (hay : String) (pre post : List Char)
    (h : hay.data = pre ++ ("[Ticket:".data ++ post)) :
    strContains hay "[Ticket:" = true := by
  unfold strContains
  rw [h]
  exact hasChunk_of_append "[Ticket:".data pre post (by decide)

/-- C10: Both outbound subjects carry the ticket marker and the inbound
filter rejects any subject carrying it, so the system's own acknowledgements
and resolution notifications are never re-ingested: the acknowledgement
subject and the resolution subject each contain the marker, and any message
whose subject contains the marker is skipped by the fetch-path filter. -/
theorem ticket_marker_closed_loop (email : EmailInput) (c : Classification)
    (r : RoutingDecision) (tid : String)
    (sender sender_name subject notes : String) (addr subj : String) :
    strContains (generate_ack email c r tid).subject "[Ticket:" = true ∧
    strContains (generate_resolution_email sender sender_name subject tid notes).subject
      "[Ticket:" = true ∧
    (strContains subj "[Ticket:" = true → should_skip addr subj = true) := by
  refine ⟨?_, ?_, ?_⟩
  · apply strContains_marker_of_parts _
      ("Re: ".data ++ email.subject.data ++ [' '])
      ([' '] ++ (tid.data ++ "]".data))
    show ("Re: " ++ email.subject ++ " [Ticket: " ++ tid ++ "]").data = _
    have hsp : " [Ticket: ".data = [' '] ++ ("[Ticket:".data ++ [' ']) := rfl
    simp [hsp]
  · apply strContains_marker_of_parts _
      ("Resolved: ".data ++ subject.data ++ [' '])
      ([' '] ++ (tid.data ++ "]".data))
    show ("Resolved: " ++ subject ++ " [Ticket: " ++ tid ++ "]").data = _
    have hsp : " [Ticket: ".data = [' '] ++ ("[Ticket:".data ++ [' ']) := rfl
    simp [hsp]
  · intro h
    unfold should_skip
    rw [h]
    simp

/-- Witness for C10 at a concrete subject: a subject carrying the marker is
rejected by the inbound filter. -/
theorem ticket_marker_closed_loop_witness :
    should_skip "user@company.com" "Re: Help [Ticket: INC0010001]" = true := by
  exact (ticket_marker_closed_loop
    ⟨some "x", "user@company.com", none, "Help", ""⟩
    ⟨"general", 9/10, "s", false⟩ ⟨"Service Desk", 3, 24, "general"⟩
    "INC0010001" "user@company.com" "User" "Help" ""
    "user@company.com" "Re: Help [Ticket: INC0010001]").2.2 (by decide)

/-- Witness for C4: a store holding one unnotified FAILED-500 record — the
cycle's outcome for it is the immediate mark whatever the collaborators do. -/
theorem sentinel_marked_without_query_witness :
    handleEntry (fun _ => none) (fun _ => false)
      ⟨"m1", "u@c.com", "S", "general", 9/10, "", false, "Service Desk", 3,
        some "FAILED-500", "processed", "t", false⟩ = .markOnly "FAILED-500" := by
  exact (sentinel_marked_without_query (fun _ => none) (fun _ => false)
    [⟨"m1", "u@c.com", "S", "general", 9/10, "", false, "Service Desk", 3,
      some "FAILED-500", "processed", "t", false⟩]
    "FAILED-500"
    ⟨"m1", "u@c.com", "S", "general", 9/10, "", false, "Service Desk", 3,
      some "FAILED-500", "processed", "t", false⟩
    (by simp [get_unnotified_tickets]) rfl (by decide)).1 (fun _ => none) (fun _ => false)

/-- Witness for C7: with a failing ticket query the cycle leaves the record
of the ticket untouched and the store is the pointwise marking. -/
theorem poller_fail_soft_witness :
    (check_resolved_tickets (fun _ => none) (fun _ => false)
        [⟨"m2", "u@c.com", "S", "general", 9/10, "", false, "Service Desk", 3,
          some "INC0010001", "processed", "t", false⟩]).1 =
      List.map (cycleMarkFn (fun _ => none) (fun _ => false)
        [⟨"m2", "u@c.com", "S", "general", 9/10, "", false, "Service Desk", 3,
          some "INC0010001", "processed", "t", false⟩])
        [⟨"m2", "u@c.com", "S", "general", 9/10, "", false, "Service Desk", 3,
          some "INC0010001", "processed", "t", false⟩] ∧
    cycleMarkFn (fun _ => none) (fun _ => false)
        [⟨"m2", "u@c.com", "S", "general", 9/10, "", false, "Service Desk", 3,
          some "INC0010001", "processed", "t", false⟩]
        ⟨"m2", "u@c.com", "S", "general", 9/10, "", false, "Service Desk", 3,
          some "INC0010001", "processed", "t", false⟩ =
      ⟨"m2", "u@c.com", "S", "general", 9/10, "", false, "Service Desk", 3,
        some "INC0010001", "processed", "t", false⟩ := by
  have h := poller_fail_soft (fun _ => none) (fun _ => false)
    [⟨"m2", "u@c.com", "S", "general", 9/10, "", false, "Service Desk", 3,
      some "INC0010001", "processed", "t", false⟩]
    "INC0010001" (by decide) (Or.inl rfl)
  exact ⟨h.1, h.2.1 _ rfl⟩

/-- Witness for C8: a resolved ticket (state "6", close notes present) is
notified to the stored sender with the notes in the body, and the
notification appears in the cycle's output. -/
theorem resolved_ticket_notified_witness :
    (resolutionEmailFor
        ⟨"m3", "u@c.com", "S", "general", 9/10, "", false, "Service Desk", 3,
          some "INC0010001", "processed", "t", false⟩
        "INC0010001" ⟨some "6", some "Fixed driver"⟩).toAddr = "u@c.com" ∧
    (resolutionEmailFor
        ⟨"m3", "u@c.com", "S", "general", 9/10, "", false, "Service Desk", 3,
          some "INC0010001", "processed", "t", false⟩
        "INC0010001" ⟨some "6", some "Fixed driver"⟩).body.resolution_notes =
      "Fixed driver" ∧
    resolutionEmailFor
        ⟨"m3", "u@c.com", "S", "general", 9/10, "", false, "Service Desk", 3,
          some "INC0010001", "processed", "t", false⟩
        "INC0010001" ⟨some "6", some "Fixed driver"⟩ ∈
      (check_resolved_tickets (fun _ => some ⟨some "6", some "Fixed driver"⟩)
        (fun _ => true)
        [⟨"m3", "u@c.com", "S", "general", 9/10, "", false, "Service Desk", 3,
          some "INC0010001", "processed", "t", false⟩]).2 := by
  have h := resolved_ticket_notified (fun _ => some ⟨some "6", some "Fixed driver"⟩)
    (fun _ => true)
    [⟨"m3", "u@c.com", "S", "general", 9/10, "", false, "Service Desk", 3,
      some "INC0010001", "processed", "t", false⟩]
    ⟨"m3", "u@c.com", "S", "general", 9/10, "", false, "Service Desk", 3,
      some "INC0010001", "processed", "t", false⟩
    "INC0010001" ⟨some "6", some "Fixed driver"⟩
    (by simp [get_unnotified_tickets]) rfl (by decide) rfl
  exact ⟨h.1, h.2.2.1 "Fixed driver" rfl (by decide), (h.2.2.2.1 rfl rfl).2.1⟩
